import Mathlib

/-!
Verification of the slang-word generation backend (src/backend/app.py):
the model/tokenizer load lifecycle (`load_model`, the lifespan startup),
the `/generate` endpoint's parameter validation, readiness gating and
error translation, the starred-words favorites list, and the length /
count guarantees of the autoregressive sampler.

External effects (file existence, tokenizer/model library calls) are
embedded as an explicit `Artefacts` environment recording the outcome of
each external operation that `load_model` performs; Python exceptions
become `Except` errors.
-/

namespace Planets

/-- A loaded tokenizer, abstracted to the datum the load-time invariant in
the spec talks about: its vocabulary size. -/
structure Tokenizer where
  vocabSize : Nat
deriving DecidableEq, Repr

/-- The parsed configuration artefact (`config.json`): whether the parsed
JSON object has a top-level model key, and the vocabulary size recorded
in the model sub-record. -/
structure Config where
  hasModelKey : Bool
  modelVocabSize : Nat
deriving DecidableEq, Repr

/-- A constructed model architecture (`models.SlangRNN(config["model"])`),
abstracted to its vocabulary size. -/
structure Model where
  vocabSize : Nat
deriving DecidableEq, Repr

/-- Outcomes of the external operations `load_model` performs, in the
order the source performs them: existence of `tokenizer.json`, the result
of `Tokenizer.from_file` (`none` means the call raised), existence of
`config.json`, the result of `json.load` (`none` means `JSONDecodeError`),
the result of constructing `models.SlangRNN(config["model"])` (`none`
means the constructor raised), existence of `model.pth`, and whether
`load_state_dict(torch.load(...))` succeeds. -/
structure Artefacts where
  tokenizerExists : Bool
  tokenizerLoad : Option Tokenizer
  configExists : Bool
  configParse : Option Config
  modelInit : Option Model
  weightsExists : Bool
  weightsLoadOk : Bool
deriving DecidableEq, Repr

/-- The exceptions `load_model` can raise, one per failing step
(`FileNotFoundError`, `RuntimeError` and `ValueError` in the source). -/
inductive LoadError where
  | tokenizerNotFound
  | tokenizerLoadFailed
  | configNotFound
  | configInvalidJson
  | configMissingModelKey
  | modelInitFailed
  | weightsNotFound
  | weightsLoadFailed
deriving DecidableEq, Repr

/-- `load_model` from src/backend/app.py: checks and loads the tokenizer,
parses and checks the configuration, constructs the architecture, checks
and loads the weights.  Each raised exception becomes the corresponding
`LoadError`; success returns the (model, tokenizer) pair. -/
def load_model (a : Artefacts) : Except LoadError (Model × Tokenizer) :=
  if a.tokenizerExists = false then .error .tokenizerNotFound else
  match a.tokenizerLoad with
  | none => .error .tokenizerLoadFailed
  | some tokenizer =>
    if a.configExists = false then .error .configNotFound else
    match a.configParse with
    | none => .error .configInvalidJson
    | some config =>
      if config.hasModelKey = false then .error .configMissingModelKey else
      match a.modelInit with
      | none => .error .modelInitFailed
      | some model =>
        if a.weightsExists = false then .error .weightsNotFound else
        if a.weightsLoadOk = false then .error .weightsLoadFailed else
        .ok (model, tokenizer)

/-- The module-level `model_state` dictionary: it holds a model entry and
a tokenizer entry, each present (`some`) or absent (`none`).  The source
only ever stores real objects under these keys, so key presence and
`some` coincide. -/
structure ModelState where
  model : Option Model
  tokenizer : Option Tokenizer
deriving DecidableEq, Repr

/-- The state before any load: both entries absent (`model_state = {}`,
i.e. `NotLoaded`). -/
def ModelState.empty : ModelState := ModelState.mk none none

/-- The `try` block of the lifespan startup: on a successful `load_model`
both entries are published; any exception is caught and the state is left
untouched. -/
def startup_try (a : Artefacts) (s : ModelState) : ModelState :=
  match load_model a with
  | .ok (m, t) => ModelState.mk (some m) (some t)
  | .error _ => s

/-- Existence of the directories the lifespan checks before attempting a
load: the static frontend folder, the artefacts folder, and the fallback
parent artefacts folder. -/
structure Dirs where
  frontendExists : Bool
  artefactsExists : Bool
  parentArtefactsExists : Bool
deriving DecidableEq, Repr

/-- The lifespan startup.  A missing frontend folder, or both artefact
folders missing, raises `FileNotFoundError` before the load is attempted
(`none` = startup crashes).  Otherwise `load_model` runs inside a `try`
whose handler swallows every exception, so startup always completes
(`true` = the startup-complete point is reached). -/
def lifespan_startup (d : Dirs) (a : Artefacts) (s : ModelState) :
    Option (ModelState × Bool) :=
  if d.frontendExists = false then none
  else if d.artefactsExists = false && d.parentArtefactsExists = false then none
  else some (startup_try a s, true)

/-- The `/health` endpoint: returns status ok whatever the model state. -/
def health (_state : ModelState) : String × String := ( "status", "ok")

/-- The type of the external sampler `sample_n` as `new_words` calls it:
model, tokenizer, word count `n`, `max_length`, temperature; an `error`
result stands for a raised exception carrying that message. -/
abbrev SamplerFn := Model → Tokenizer → Nat → Nat → ℚ → Except String (List String)

/-- `new_words` from src/backend/app.py: fetches model and tokenizer from
the state, raises `RuntimeError` if either is missing, and otherwise calls
`sample_n` with the hard-coded `max_length = 20`, returning its result
unchanged. -/
def new_words (sample_fn : SamplerFn) (state : ModelState) (n : Nat)
    (temperature : ℚ) : Except String (List String) :=
  match state.model, state.tokenizer with
  | some model, some tokenizer => sample_fn model tokenizer n 20 temperature
  | _, _ => .error ( "Model or Tokenizer not initialized")

/-- A `/generate` request: the two optional query parameters. `max_length`
is not a parameter of the request. -/
structure GenerateRequest where
  num_words : Option Int
  temperature : Option ℚ
deriving DecidableEq, Repr

/-- The observable responses of the `/generate` endpoint: 200 with the
word list, 422 from query validation, 503 and 500 with their detail
strings. -/
inductive GenerateResponse where
  | ok (words : List String)
  | unprocessable
  | serviceUnavailable (detail : String)
  | internalError (detail : String)
deriving DecidableEq, Repr

/-- The `/generate` endpoint.  FastAPI first binds the query parameters,
applying the defaults `num_words = 10`, `temperature = 1.0` and the
declared bounds `num_words ≥ 1`, `0 ≤ temperature ≤ 10` (violations give
422 before the handler body runs).  The handler then returns 503 when the
model or tokenizer entry is missing, and otherwise calls `new_words`,
translating any exception into a 500 whose detail is `str(e)`. -/
def generate_words (sample_fn : SamplerFn) (state : ModelState)
    (req : GenerateRequest) : GenerateResponse :=
  if req.num_words.getD 10 < 1 then .unprocessable
  else if req.temperature.getD 1 < 0 then .unprocessable
  else if 10 < req.temperature.getD 1 then .unprocessable
  else if state.model.isNone || state.tokenizer.isNone then
    .serviceUnavailable ( "Model not loaded")
  else
    match new_words sample_fn state (req.num_words.getD 10).toNat
        (req.temperature.getD 1) with
    | .ok words => .ok words
    | .error msg => .internalError msg

/-- The `/starred` POST handler body: append the word only when it is not
already present (membership by string equality). -/
def add_starred_word (starred : List String) (w : String) : List String :=
  if w ∈ starred then starred else starred ++ [w]

/-- The `/unstarred` POST handler body: Python's `list.remove` deletes the
first occurrence, guarded by a membership test so a missing word is a
no-op. -/
def remove_starred_word (starred : List String) (w : String) : List String :=
  if w ∈ starred then starred.erase w else starred

/-- One operation on the favorites list. -/
inductive StarOp where
  | add (w : String)
  | remove (w : String)
deriving DecidableEq, Repr

/-- Apply one favorites operation. -/
def applyStarOp (l : List String) : StarOp → List String
  | .add w => add_starred_word l w
  | .remove w => remove_starred_word l w

/-- Apply a sequence of favorites operations, starting from a list. -/
def applyStarOps (l : List String) (ops : List StarOp) : List String :=
  ops.foldl applyStarOp l

/-- Modelled from the spec: the autoregressive sampler `sample_n` lives in
`backend/utils.py`, which is not among the reviewed source files, so the
per-word loop is taken from the spec's per-word algorithm.  One generation
step (the model's `step` combined with the temperature-scaled categorical
draw from its logits, using the call-local randomness stream) is the
abstract transition `stepDraw : τ → Nat → Nat × τ`, where `τ` bundles the
hidden state together with the local randomness stream; the loop feeds the
last produced id back in, stops on the designated end-token id without
appending it, and is cut off by the `fuel` (`max_length`) bound. -/
def sample_word_ids {τ : Type} (stepDraw : τ → Nat → Nat × τ) (endId : Nat) :
    Nat → τ → Nat → List Nat
  | 0, _, _ => []
  | fuel + 1, st, lastId =>
    let r := stepDraw st lastId
    if r.1 = endId then []
    else r.1 :: sample_word_ids stepDraw endId fuel r.2 r.1

/-- Modelled from the spec: one word is generated by running the loop from
the start-token id with `max_length` fuel and decoding the produced ids
through the tokenizer, here a character-level decode `charOf` mapping each
id to one character (the spec's scenarios map ids to single characters). -/
def sample_word {τ : Type} (stepDraw : τ → Nat → Nat × τ)
    (endId startId : Nat) (charOf : Nat → Char) (maxLength : Nat)
    (st : τ) : String :=
  String.mk ((sample_word_ids stepDraw endId maxLength st startId).map charOf)

/-- Modelled from the spec: `sample_n` generates the `n` requested words
independently — word `i` gets its own fresh hidden-state/randomness bundle
`rng i`, never shared across words — with the temperature parametrising
the draw. -/
def sample_n {τ : Type} (rng : Nat → τ) (stepDraw : ℚ → τ → Nat → Nat × τ)
    (endId startId : Nat) (charOf : Nat → Char) (n maxLength : Nat)
    (temperature : ℚ) : List String :=
  (List.range n).map (fun i =>
    sample_word (stepDraw temperature) endId startId charOf maxLength (rng i))

/-- The spec-modelled sampler packaged with the calling convention
`new_words` uses; it never raises. -/
def modelled_sampler {τ : Type} (rng : Nat → τ)
    (stepDraw : ℚ → τ → Nat → Nat × τ) (endId startId : Nat)
    (charOf : Nat → Char) : SamplerFn :=
  fun _model _tokenizer n maxLength temperature =>
    .ok (sample_n rng stepDraw endId startId charOf n maxLength temperature)

/-- A sampler that always succeeds with an empty word list (a stand-in for
an arbitrary healthy sampler in concrete evaluations). -/
def okSampler : SamplerFn := fun _ _ _ _ _ => .ok []

/-- A sampler that raises an exception carrying an internal message. -/
def leakySampler1 : SamplerFn := fun _ _ _ _ _ => .error ( "secret detail one")

/-- A sampler that raises an exception carrying a different message. -/
def leakySampler2 : SamplerFn := fun _ _ _ _ _ => .error ( "secret detail two")

/-- A state in which both entries are published. -/
def loadedState : ModelState :=
  ModelState.mk (some (Model.mk 5)) (some (Tokenizer.mk 5))

/-- An artefact environment in which every load step succeeds but the
configuration's vocabulary size (7) differs from the tokenizer's (5). -/
def mismatchArtefacts : Artefacts :=
  Artefacts.mk true (some (Tokenizer.mk 5)) true (some (Config.mk true 7))
    (some (Model.mk 7)) true true

/-- An artefact environment whose tokenizer file is missing, so the first
load step fails. -/
def missingArtefacts : Artefacts :=
  Artefacts.mk false none false none none false false

/-- Concrete transition for evaluating the spec-modelled sampler: ignore
the temperature and state, always draw `lastId + 1`, never the end token
`0`. -/
def wStepDraw : ℚ → Unit → Nat → Nat × Unit :=
  fun _ _ lastId => (lastId + 1, ())

/-- Concrete per-word state source for evaluating the sampler. -/
def wRng : Nat → Unit := fun _ => ()

/-- Concrete character-level decode for evaluating the sampler. -/
def wCharOf : Nat → Char := fun _ => 'a'

theorem add_starred_nodup (l : List String) (w : String) (h : l.Nodup) :
    (add_starred_word l w).Nodup := by
  by_cases hw : w ∈ l
  · simpa [add_starred_word, hw] using h
  · simp [add_starred_word, hw, List.nodup_append, h]

theorem remove_starred_nodup (l : List String) (w : String) (h : l.Nodup) :
    (remove_starred_word l w).Nodup := by
  by_cases hw : w ∈ l
  · simpa [remove_starred_word, hw] using h.erase w
  · simpa [remove_starred_word, hw] using h

theorem applyStarOps_nodup (ops : List StarOp) :
    ∀ l : List String, l.Nodup → (applyStarOps l ops).Nodup := by
  induction ops with
  | nil => intro l h; simpa [applyStarOps] using h
  | cons op ops ih =>
    intro l h
    have : applyStarOps l (op :: ops) = applyStarOps (applyStarOp l op) ops := rfl
    rw [this]
    cases op with
    | add w => exact ih _ (add_starred_nodup l w h)
    | remove w => exact ih _ (remove_starred_nodup l w h)

theorem mem_add_starred (l : List String) (w : String) :
    w ∈ add_starred_word l w := by
  by_cases hw : w ∈ l <;> simp [add_starred_word, hw]

/-- C7: the favorites list never contains duplicates (any sequence of
add/remove operations starting from the empty list keeps it duplicate
free, and one add preserves duplicate freedom); `add` appends the word at
the end only when it is not already present, so adding twice equals adding
once, and the existing entries stay in place (the old list is an initial
segment of the new one); `remove` deletes the word; membership of any
other word is untouched; membership is exact string equality throughout.  -/
theorem starred_words_spec :
    (∀ ops : List StarOp, (applyStarOps [] ops).Nodup) ∧
    (∀ (l : List String) (w : String), l.Nodup → (add_starred_word l w).Nodup) ∧
    (∀ (l : List String) (w : String),
      add_starred_word (add_starred_word l w) w = add_starred_word l w) ∧
    (∀ (l : List String) (w : String), w ∉ l → add_starred_word l w = l ++ [w]) ∧
    (∀ (l : List String) (w : String), w ∈ l → add_starred_word l w = l) ∧
    (∀ (l : List String) (w : String), l <+: add_starred_word l w) ∧
    (∀ (l : List String) (w : String), l.Nodup → w ∉ remove_starred_word l w) ∧
    (∀ (l : List String) (w v : String), v ≠ w →
      (v ∈ remove_starred_word l w ↔ v ∈ l)) := by
  refine ⟨fun ops => applyStarOps_nodup ops [] (by simp),
    add_starred_nodup, ?_, ?_, ?_, ?_, ?_, ?_⟩
  · intro l w
    rw [show add_starred_word (add_starred_word l w) w
        = if w ∈ add_starred_word l w then add_starred_word l w
          else add_starred_word l w ++ [w] from rfl,
      if_pos (mem_add_starred l w)]
  · intro l w hw
    simp [add_starred_word, hw]
  · intro l w hw
    simp [add_starred_word, hw]
  · intro l w
    by_cases hw : w ∈ l
    · simp [add_starred_word, hw]
    · simp only [add_starred_word, hw, if_neg]
      exact ⟨[w], rfl⟩
  · intro l w h
    by_cases hw : w ∈ l
    · simp [remove_starred_word, hw, h.mem_erase_iff]
    · simp [remove_starred_word, hw]
  · intro l w v hvw
    by_cases hw : w ∈ l
    · simpa [remove_starred_word, hw] using List.mem_erase_of_ne hvw
    · simp [remove_starred_word, hw]

/-- Witness for C7 at concrete lists. -/
theorem starred_words_spec_witness :
    (applyStarOps [] [StarOp.add ( "a"), StarOp.add ( "b"), StarOp.add ( "a")]).Nodup ∧
    (add_starred_word [ "a"] ( "b")).Nodup ∧
    add_starred_word [ "a"] ( "b") = [ "a", "b"] ∧
    add_starred_word [ "a", "b"] ( "b") = [ "a", "b"] ∧
    ( "b") ∉ remove_starred_word [ "a", "b"] ( "b") ∧
    (( "a") ∈ remove_starred_word [ "a", "b"] ( "b") ↔ ( "a") ∈ [ "a", "b"]) :=
  ⟨starred_words_spec.1 _,
   starred_words_spec.2.1 _ _ (by decide),
   starred_words_spec.2.2.2.1 _ _ (by decide),
   starred_words_spec.2.2.2.2.1 _ _ (by decide),
   starred_words_spec.2.2.2.2.2.2.1 _ _ (by decide),
   starred_words_spec.2.2.2.2.2.2.2 _ _ _ (by decide)⟩

/-- C10: removing a word that is not in the favorites list succeeds and
leaves the list unchanged — a no-op, not a failure. -/
theorem remove_nonmember_noop (l : List String) (w : String) (h : w ∉ l) :
    remove_starred_word l w = l := by
  simp [remove_starred_word, h]

/-- Witness for C10 at a concrete list. -/
theorem remove_nonmember_noop_witness :
    remove_starred_word [ "a"] ( "b") = [ "a"] :=
  remove_nonmember_noop [ "a"] ( "b") (by decide)

/-- C2: load is atomic — whenever any step of `load_model` fails, the
startup try-block leaves `model_state` exactly as it was; starting from
the empty state neither the model nor the tokenizer entry is published,
and a subsequent fetch through `new_words` fails because the state is not
loaded.  No model-only or tokenizer-only state is observable. -/
theorem load_atomic (a : Artefacts) (e : LoadError) (s : ModelState)
    (hl : load_model a = .error e) :
    startup_try a s = s ∧
    (startup_try a ModelState.empty).model = none ∧
    (startup_try a ModelState.empty).tokenizer = none ∧
    (∀ (sample_fn : SamplerFn) (n : Nat) (temp : ℚ),
      new_words sample_fn (startup_try a ModelState.empty) n temp
        = .error ( "Model or Tokenizer not initialized")) := by
  have h0 : ∀ s' : ModelState, startup_try a s' = s' := by
    intro s'
    simp [startup_try, hl]
  refine ⟨h0 s, ?_, ?_, ?_⟩ <;> simp [h0, ModelState.empty, new_words]

/-- Witness for C2 at a concrete failing artefact environment. -/
theorem load_atomic_witness :
    startup_try missingArtefacts ModelState.empty = ModelState.empty ∧
    (startup_try missingArtefacts ModelState.empty).model = none :=
  ⟨(load_atomic missingArtefacts .tokenizerNotFound ModelState.empty rfl).1,
   (load_atomic missingArtefacts .tokenizerNotFound ModelState.empty rfl).2.1⟩

/-- C8: a failed load never crashes the process — whenever the lifespan
reaches the load call (frontend folder present, an artefacts folder
found) and `load_model` raises, the exception is caught at the call site,
startup still completes, the state is untouched, and the `/health`
endpoint still answers ok. -/
theorem failed_load_no_crash (d : Dirs) (a : Artefacts) (e : LoadError)
    (s : ModelState) (hf : d.frontendExists = true)
    (ha : d.artefactsExists = true ∨ d.parentArtefactsExists = true)
    (hl : load_model a = .error e) :
    lifespan_startup d a s = some (s, true) ∧
    health (startup_try a s) = ( "status", "ok") := by
  have h : startup_try a s = s := by simp [startup_try, hl]
  refine ⟨?_, rfl⟩
  rcases ha with ha | ha <;> simp [lifespan_startup, hf, ha, h]

/-- Witness for C8 at a concrete failing artefact environment. -/
theorem failed_load_no_crash_witness :
    lifespan_startup (Dirs.mk true true true) missingArtefacts ModelState.empty
      = some (ModelState.empty, true) :=
  (failed_load_no_crash (Dirs.mk true true true) missingArtefacts
    .tokenizerNotFound ModelState.empty rfl (Or.inl rfl) rfl).1

/-- Counterexample for C4: an artefact environment in which every load
step succeeds while the configuration's vocabulary size (7) differs from
the tokenizer's (5); `load_model` nevertheless returns the pair — no
vocabulary validation happens and no `ConfigInvalid`-typed failure is
raised on the mismatch. -/
theorem load_vocab_check_counterexample :
    load_model mismatchArtefacts = Except.ok (Model.mk 7, Tokenizer.mk 5) ∧
    Config.modelVocabSize (Config.mk true 7)
      ≠ Tokenizer.vocabSize (Tokenizer.mk 5) :=
  ⟨rfl, by decide⟩

/-- C4 amended: `load_model` performs, in order, the tokenizer existence
check and load, the configuration existence check and parse, the model
key check, the model architecture construction, and the weights existence
check and load; each step fails with its own error only when every
earlier step succeeded, and when every step succeeds the load returns the
pair — for any vocabulary sizes, so no validation of the configuration's
vocabulary size against the tokenizer's is performed. -/
theorem load_model_step_order :
    (∀ a : Artefacts, a.tokenizerExists = false →
      load_model a = .error .tokenizerNotFound) ∧
    (∀ a : Artefacts, a.tokenizerExists = true → a.tokenizerLoad = none →
      load_model a = .error .tokenizerLoadFailed) ∧
    (∀ (a : Artefacts) (t : Tokenizer), a.tokenizerExists = true →
      a.tokenizerLoad = some t → a.configExists = false →
      load_model a = .error .configNotFound) ∧
    (∀ (a : Artefacts) (t : Tokenizer), a.tokenizerExists = true →
      a.tokenizerLoad = some t → a.configExists = true →
      a.configParse = none →
      load_model a = .error .configInvalidJson) ∧
    (∀ (a : Artefacts) (t : Tokenizer) (c : Config), a.tokenizerExists = true →
      a.tokenizerLoad = some t → a.configExists = true →
      a.configParse = some c → c.hasModelKey = false →
      load_model a = .error .configMissingModelKey) ∧
    (∀ (a : Artefacts) (t : Tokenizer) (c : Config), a.tokenizerExists = true →
      a.tokenizerLoad = some t → a.configExists = true →
      a.configParse = some c → c.hasModelKey = true → a.modelInit = none →
      load_model a = .error .modelInitFailed) ∧
    (∀ (a : Artefacts) (t : Tokenizer) (c : Config) (m : Model),
      a.tokenizerExists = true → a.tokenizerLoad = some t →
      a.configExists = true → a.configParse = some c → c.hasModelKey = true →
      a.modelInit = some m → a.weightsExists = false →
      load_model a = .error .weightsNotFound) ∧
    (∀ (a : Artefacts) (t : Tokenizer) (c : Config) (m : Model),
      a.tokenizerExists = true → a.tokenizerLoad = some t →
      a.configExists = true → a.configParse = some c → c.hasModelKey = true →
      a.modelInit = some m → a.weightsExists = true → a.weightsLoadOk = false →
      load_model a = .error .weightsLoadFailed) ∧
    (∀ (a : Artefacts) (t : Tokenizer) (c : Config) (m : Model),
      a.tokenizerExists = true → a.tokenizerLoad = some t →
      a.configExists = true → a.configParse = some c → c.hasModelKey = true →
      a.modelInit = some m → a.weightsExists = true → a.weightsLoadOk = true →
      load_model a = .ok (m, t)) := by
  refine ⟨?_, ?_, ?_, ?_, ?_, ?_, ?_, ?_, ?_⟩ <;>
    intros <;> simp_all [load_model]

/-- Witness for C4, hitting each step of `load_model` at a concrete
artefact environment. -/
theorem load_model_step_order_witness :
    load_model (Artefacts.mk false none false none none false false)
      = .error .tokenizerNotFound ∧
    load_model (Artefacts.mk true none false none none false false)
      = .error .tokenizerLoadFailed ∧
    load_model (Artefacts.mk true (some (Tokenizer.mk 5)) false none none
        false false)
      = .error .configNotFound ∧
    load_model (Artefacts.mk true (some (Tokenizer.mk 5)) true none none
        false false)
      = .error .configInvalidJson ∧
    load_model (Artefacts.mk true (some (Tokenizer.mk 5)) true
        (some (Config.mk false 7)) none false false)
      = .error .configMissingModelKey ∧
    load_model (Artefacts.mk true (some (Tokenizer.mk 5)) true
        (some (Config.mk true 7)) none false false)
      = .error .modelInitFailed ∧
    load_model (Artefacts.mk true (some (Tokenizer.mk 5)) true
        (some (Config.mk true 7)) (some (Model.mk 7)) false false)
      = .error .weightsNotFound ∧
    load_model (Artefacts.mk true (some (Tokenizer.mk 5)) true
        (some (Config.mk true 7)) (some (Model.mk 7)) true false)
      = .error .weightsLoadFailed ∧
    load_model mismatchArtefacts = .ok (Model.mk 7, Tokenizer.mk 5) :=
  ⟨load_model_step_order.1 _ rfl,
   load_model_step_order.2.1 _ rfl rfl,
   load_model_step_order.2.2.1 _ _ rfl rfl rfl,
   load_model_step_order.2.2.2.1 _ _ rfl rfl rfl rfl,
   load_model_step_order.2.2.2.2.1 _ _ _ rfl rfl rfl rfl rfl,
   load_model_step_order.2.2.2.2.2.1 _ _ _ rfl rfl rfl rfl rfl rfl,
   load_model_step_order.2.2.2.2.2.2.1 _ _ _ _ rfl rfl rfl rfl rfl rfl rfl,
   load_model_step_order.2.2.2.2.2.2.2.1 _ _ _ _ rfl rfl rfl rfl rfl rfl rfl rfl,
   load_model_step_order.2.2.2.2.2.2.2.2 _ _ _ _ rfl rfl rfl rfl rfl rfl rfl rfl⟩

/-- C6: a count below 1 or a temperature outside the interval from 0 to
10 is rejected with 422 by the declared query bounds, whatever the
sampler and state (so before any sampling occurs); every count at least 1
together with a temperature in the interval passes this validation — the
response is never 422. -/
theorem generate_validation (sample_fn : SamplerFn) (state : ModelState)
    (req : GenerateRequest) :
    ((req.num_words.getD 10 < 1 ∨ req.temperature.getD 1 < 0 ∨
        10 < req.temperature.getD 1) →
      generate_words sample_fn state req = .unprocessable) ∧
    (1 ≤ req.num_words.getD 10 → 0 ≤ req.temperature.getD 1 →
      req.temperature.getD 1 ≤ 10 →
      generate_words sample_fn state req ≠ .unprocessable) := by
  constructor
  · intro h
    unfold generate_words
    split
    · rfl
    next h1 =>
      split
      · rfl
      next h2 =>
        split
        · rfl
        next h3 =>
          rcases h with h | h | h
          · exact absurd h h1
          · exact absurd h h2
          · exact absurd h h3
  · intro hn h0 h10
    unfold generate_words
    rw [if_neg (not_lt.mpr hn), if_neg (not_lt.mpr h0), if_neg (not_lt.mpr h10)]
    split
    · simp
    · split <;> simp

/-- Witness for C6 at concrete requests. -/
theorem generate_validation_witness :
    generate_words okSampler ModelState.empty (GenerateRequest.mk (some 0) none)
      = .unprocessable ∧
    generate_words okSampler loadedState (GenerateRequest.mk (some 2) (some 1))
      ≠ .unprocessable :=
  ⟨(generate_validation okSampler ModelState.empty
      (GenerateRequest.mk (some 0) none)).1 (Or.inl (by decide)),
   (generate_validation okSampler loadedState
      (GenerateRequest.mk (some 2) (some 1))).2 (by decide) (by decide) (by decide)⟩

/-- Counterexample for C1: a request with an out-of-range count, made
before any load (empty state), is answered 422 by parameter validation,
not 503 with detail Model not loaded — so not every pre-load request
fails with `ServiceUnavailable`. -/
theorem readiness_gating_counterexample :
    generate_words okSampler ModelState.empty (GenerateRequest.mk (some 0) none)
      = .unprocessable ∧
    GenerateResponse.unprocessable
      ≠ .serviceUnavailable ( "Model not loaded") :=
  ⟨by decide, by decide⟩

/-- C1 amended: every request whose parameters pass validation (count at
least 1, temperature between 0 and 10), made while the model or tokenizer
entry is missing, is answered 503 with detail Model not loaded; after a
successful load publishes both entries (and before a clear), no request —
valid or not — is ever answered with `ServiceUnavailable`. -/
theorem readiness_gating :
    (∀ (sample_fn : SamplerFn) (state : ModelState) (req : GenerateRequest),
      1 ≤ req.num_words.getD 10 → 0 ≤ req.temperature.getD 1 →
      req.temperature.getD 1 ≤ 10 →
      (state.model = none ∨ state.tokenizer = none) →
      generate_words sample_fn state req
        = .serviceUnavailable ( "Model not loaded")) ∧
    (∀ (sample_fn : SamplerFn) (state : ModelState) (req : GenerateRequest)
      (m : Model) (t : Tokenizer),
      state.model = some m → state.tokenizer = some t →
      ∀ d : String, generate_words sample_fn state req
        ≠ .serviceUnavailable d) := by
  constructor
  · intro sample_fn state req hn h0 h10 hnl
    unfold generate_words
    rw [if_neg (not_lt.mpr hn), if_neg (not_lt.mpr h0), if_neg (not_lt.mpr h10),
      if_pos (by rcases hnl with h | h <;> simp [h])]
  · intro sample_fn state req m t hm ht d
    unfold generate_words
    split
    · simp
    · split
      · simp
      · split
        · simp
        · rw [if_neg (by simp [hm, ht])]
          split <;> simp

/-- Witness for C1 at a concrete empty and loaded state. -/
theorem readiness_gating_witness :
    generate_words okSampler ModelState.empty (GenerateRequest.mk none none)
      = .serviceUnavailable ( "Model not loaded") ∧
    generate_words okSampler loadedState (GenerateRequest.mk none none)
      ≠ .serviceUnavailable ( "Model not loaded") :=
  ⟨readiness_gating.1 okSampler ModelState.empty (GenerateRequest.mk none none)
      (by decide) (by decide) (by decide) (Or.inl rfl),
   readiness_gating.2 okSampler loadedState (GenerateRequest.mk none none)
      (Model.mk 5) (Tokenizer.mk 5) rfl rfl ( "Model not loaded")⟩

/-- Counterexample for C5: two samplers that raise exceptions with
different internal messages; the endpoint's 500 response carries each
message verbatim in its detail — the report is not generic and exposes
the exception's message. -/
theorem sampler_error_exposure_counterexample :
    generate_words leakySampler1 loadedState (GenerateRequest.mk none none)
      = .internalError ( "secret detail one") ∧
    generate_words leakySampler2 loadedState (GenerateRequest.mk none none)
      = .internalError ( "secret detail two") :=
  ⟨by decide, by decide⟩

/-- C5 amended: any exception raised from the sampler during a generate
call on a loaded state with valid parameters is caught — the process does
not crash and the error is not swallowed — and is reported to the caller
as a 500 internal error whose detail is the exception's own message (the
message is exposed to the caller, not replaced by a generic detail). -/
theorem sampler_error_translation (sample_fn : SamplerFn) (state : ModelState)
    (m : Model) (t : Tokenizer) (req : GenerateRequest) (msg : String)
    (hm : state.model = some m) (ht : state.tokenizer = some t)
    (hn : 1 ≤ req.num_words.getD 10) (h0 : 0 ≤ req.temperature.getD 1)
    (h10 : req.temperature.getD 1 ≤ 10)
    (hs : sample_fn m t (req.num_words.getD 10).toNat 20 (req.temperature.getD 1)
      = .error msg) :
    generate_words sample_fn state req = .internalError msg := by
  unfold generate_words
  rw [if_neg (not_lt.mpr hn), if_neg (not_lt.mpr h0), if_neg (not_lt.mpr h10),
    if_neg (by simp [hm, ht])]
  simp [new_words, hm, ht, hs]

/-- Witness for C5 at a concrete leaking sampler. -/
theorem sampler_error_translation_witness :
    generate_words leakySampler2 loadedState (GenerateRequest.mk (some 2) (some 1))
      = .internalError ( "secret detail two") :=
  sampler_error_translation leakySampler2 loadedState (Model.mk 5) (Tokenizer.mk 5)
    (GenerateRequest.mk (some 2) (some 1)) ( "secret detail two") rfl rfl
    (by decide) (by decide) (by decide) rfl

/-- C9: a request with no parameters behaves exactly like one with count
10 and temperature 1, for every sampler and state; and whenever the state
is loaded, `new_words` always calls the sampler with `max_length` 20 and
returns its result unchanged — the bound is fixed and is not a request
parameter. -/
theorem generate_defaults (sample_fn : SamplerFn) (state : ModelState) :
    generate_words sample_fn state (GenerateRequest.mk none none)
      = generate_words sample_fn state (GenerateRequest.mk (some 10) (some 1)) ∧
    (∀ (m : Model) (t : Tokenizer) (n : Nat) (temp : ℚ),
      state.model = some m → state.tokenizer = some t →
      new_words sample_fn state n temp = sample_fn m t n 20 temp) := by
  refine ⟨rfl, ?_⟩
  intro m t n temp hm ht
  simp [new_words, hm, ht]

/-- Witness for C9 at a concrete loaded state. -/
theorem generate_defaults_witness :
    new_words okSampler loadedState 3 2
      = okSampler (Model.mk 5) (Tokenizer.mk 5) 3 20 2 :=
  (generate_defaults okSampler loadedState).2 (Model.mk 5) (Tokenizer.mk 5)
    3 2 rfl rfl

theorem sample_word_ids_length_le {τ : Type} (stepDraw : τ → Nat → Nat × τ)
    (endId : Nat) :
    ∀ (fuel : Nat) (st : τ) (lastId : Nat),
      (sample_word_ids stepDraw endId fuel st lastId).length ≤ fuel := by
  intro fuel
  induction fuel with
  | zero =>
    intro st lastId
    simp [sample_word_ids]
  | succ k ih =>
    intro st lastId
    simp only [sample_word_ids]
    split
    · simp
    · have h := ih (stepDraw st lastId).2 (stepDraw st lastId).1
      simp only [List.length_cons]
      omega

theorem sample_word_length_le {τ : Type} (stepDraw : τ → Nat → Nat × τ)
    (endId startId : Nat) (charOf : Nat → Char) (maxLength : Nat) (st : τ) :
    (sample_word stepDraw endId startId charOf maxLength st).length
      ≤ maxLength := by
  have h : (sample_word stepDraw endId startId charOf maxLength st).length
      = (sample_word_ids stepDraw endId maxLength st startId).length := by
    simp [sample_word, String.length]
  rw [h]
  exact sample_word_ids_length_le stepDraw endId maxLength st startId

theorem sample_n_count {τ : Type} (rng : Nat → τ)
    (stepDraw : ℚ → τ → Nat → Nat × τ) (endId startId : Nat)
    (charOf : Nat → Char) (n maxLength : Nat) (temperature : ℚ) :
    (sample_n rng stepDraw endId startId charOf n maxLength temperature).length
      = n := by
  simp [sample_n]

theorem sample_n_word_length_le {τ : Type} (rng : Nat → τ)
    (stepDraw : ℚ → τ → Nat → Nat × τ) (endId startId : Nat)
    (charOf : Nat → Char) (n maxLength : Nat) (temperature : ℚ) :
    ∀ w ∈ sample_n rng stepDraw endId startId charOf n maxLength temperature,
      w.length ≤ maxLength := by
  intro w hw
  simp only [sample_n, List.mem_map, List.mem_range] at hw
  obtain ⟨i, _, rfl⟩ := hw
  exact sample_word_length_le (stepDraw temperature) endId startId charOf
    maxLength (rng i)

/-- C3 (sampler modelled from the spec): on a loaded state, a request with
valid parameters is answered 200 with exactly the sampler's word list,
generated with the façade's fixed `max_length` of 20; that list contains
exactly the requested number of words, and every word has length at most
20. -/
theorem generation_length_bound {τ : Type} (rng : Nat → τ)
    (stepDraw : ℚ → τ → Nat → Nat × τ) (endId startId : Nat)
    (charOf : Nat → Char) (state : ModelState) (m : Model) (t : Tokenizer)
    (req : GenerateRequest)
    (hm : state.model = some m) (ht : state.tokenizer = some t)
    (hn : 1 ≤ req.num_words.getD 10) (h0 : 0 ≤ req.temperature.getD 1)
    (h10 : req.temperature.getD 1 ≤ 10) :
    generate_words (modelled_sampler rng stepDraw endId startId charOf) state req
      = .ok (sample_n rng stepDraw endId startId charOf
          (req.num_words.getD 10).toNat 20 (req.temperature.getD 1)) ∧
    (sample_n rng stepDraw endId startId charOf
        (req.num_words.getD 10).toNat 20 (req.temperature.getD 1)).length
      = (req.num_words.getD 10).toNat ∧
    (∀ w ∈ sample_n rng stepDraw endId startId charOf
        (req.num_words.getD 10).toNat 20 (req.temperature.getD 1),
      w.length ≤ 20) := by
  refine ⟨?_, sample_n_count rng stepDraw endId startId charOf _ 20 _,
    sample_n_word_length_le rng stepDraw endId startId charOf _ 20 _⟩
  unfold generate_words
  rw [if_neg (not_lt.mpr hn), if_neg (not_lt.mpr h0), if_neg (not_lt.mpr h10),
    if_neg (by simp [hm, ht])]
  simp [new_words, hm, ht, modelled_sampler]

/-- Witness for C3 at a concrete modelled sampler that never draws the
end token. -/
theorem generation_length_bound_witness :
    generate_words (modelled_sampler wRng wStepDraw 0 1 wCharOf) loadedState
      (GenerateRequest.mk (some 3) (some 2))
      = .ok (sample_n wRng wStepDraw 0 1 wCharOf 3 20 2) ∧
    (sample_n wRng wStepDraw 0 1 wCharOf 3 20 2).length = 3 :=
  ⟨(generation_length_bound wRng wStepDraw 0 1 wCharOf loadedState (Model.mk 5)
      (Tokenizer.mk 5) (GenerateRequest.mk (some 3) (some 2)) rfl rfl
      (by decide) (by decide) (by decide)).1,
   (generation_length_bound wRng wStepDraw 0 1 wCharOf loadedState (Model.mk 5)
      (Tokenizer.mk 5) (GenerateRequest.mk (some 3) (some 2)) rfl rfl
      (by decide) (by decide) (by decide)).2.1⟩

end Planets
